import Mathlib

/-!
Verification development for the cross-exchange arbitrage coordination
engine (`src/strategy` and `src/exchanges`): quote book, coordination
tick, order-update handling and hedging, the fill monitor, the cancel
endpoints, and the websocket connection loops.

Python `Decimal` prices are modelled as rationals, optional values as
`Option`, raised exceptions as `Except`, and Python truthiness of a
price (`None` and `0` are falsy) explicitly.
-/

namespace CrossArb

/-- Raw value arriving at a book-update call: Python `None`, a value that
parses as a decimal, or a value whose parse raises. -/
inductive RawVal
  | vNone
  | vNum (q : ℚ)
  | vBad
  deriving DecidableEq, Repr

/-- Embedding of `OrderBookManager._to_decimal`: `None` maps to `None`, a
parseable value to its decimal, an unparseable value to `None` (the bare
`except` branch). -/
def toDecimal : RawVal → Option ℚ
  | RawVal.vNone => none
  | RawVal.vNum q => some q
  | RawVal.vBad => none

/-- One venue's stored best bid and offer, each side possibly `None`. -/
structure Bbo where
  bid : Option ℚ
  ask : Option ℚ
  deriving DecidableEq, Repr

/-- State of `OrderBookManager`: one BBO store per venue. -/
structure OrderBookManager where
  extended : Bbo
  lighter : Bbo
  edgex : Bbo
  deriving DecidableEq, Repr

/-- Test fixture: a book with the given Extended and Lighter sides and an
empty EdgeX book. -/
def mkBook (exBid exAsk lBid lAsk : Option ℚ) : OrderBookManager :=
  { extended := { bid := exBid, ask := exAsk },
    lighter := { bid := lBid, ask := lAsk },
    edgex := { bid := none, ask := none } }

/-- Embedding of `OrderBookManager.update_extended_bbo`: each side of the
Extended BBO is replaced by `_to_decimal` of the incoming value; the other
venues are untouched. -/
def update_extended_bbo (m : OrderBookManager) (bid ask : RawVal) : OrderBookManager :=
  { m with extended := { bid := toDecimal bid, ask := toDecimal ask } }

/-- Embedding of the property `OrderBookManager.extended_order_book_ready`:
both sides present. -/
def extended_order_book_ready (m : OrderBookManager) : Bool :=
  m.extended.bid.isSome && m.extended.ask.isSome

/-- Embedding of `OrderBookManager.get_extended_bbo`. -/
def get_extended_bbo (m : OrderBookManager) : Option ℚ × Option ℚ :=
  (m.extended.bid, m.extended.ask)

/-- Embedding of `OrderBookManager.get_lighter_bbo`. -/
def get_lighter_bbo (m : OrderBookManager) : Option ℚ × Option ℚ :=
  (m.lighter.bid, m.lighter.ask)

/-- Python truthiness of an optional decimal: `None` and `0` are falsy. -/
def truthy : Option ℚ → Bool
  | none => false
  | some q => q != 0

/-- Outcome of one spread-evaluation iteration of the trading loop in
`ExtendedArb.run`. -/
inductive TickAction
  | skip                  -- some price missing or zero: sleep and continue
  | placeBuy (price : ℚ)  -- long opportunity: post-only buy at the Extended bid
  | placeSell (price : ℚ) -- short opportunity: post-only sell at the Extended ask
  | noOp                  -- all prices available, no opportunity
  deriving DecidableEq, Repr

/-- Embedding of the spread evaluation in the `ExtendedArb.run` trading loop:
the `all([ex_bid, ex_ask, l_bid, l_ask])` guard (a `None` or zero price
skips the tick), then `long_opp = (l_bid - ex_bid) > long_ex_threshold`
placing a buy at the Extended bid, `elif short_opp = (ex_ask - l_ask) >
short_ex_threshold` placing a sell at the Extended ask. The placement price
is the one `place_extended_post_only_order` reads back from the book within
the same tick. -/
def tickDecision (m : OrderBookManager) (longTh shortTh : ℚ) : TickAction :=
  match m.extended.bid, m.extended.ask, m.lighter.bid, m.lighter.ask with
  | some eb, some ea, some lb, some la =>
      if eb = 0 ∨ ea = 0 ∨ lb = 0 ∨ la = 0 then TickAction.skip
      else if lb - eb > longTh then TickAction.placeBuy eb
      else if ea - la > shortTh then TickAction.placeSell ea
      else TickAction.noOp
  | _, _, _, _ => TickAction.skip

/-- State held by `PositionTracker`. -/
structure PositionTracker where
  makerExchange : String
  edgexPosition : ℚ
  extendedPosition : ℚ
  lighterPosition : ℚ
  deriving DecidableEq, Repr

/-- Embedding of `PositionTracker.get_net_position`. -/
def get_net_position (p : PositionTracker) : ℚ :=
  if p.makerExchange = "edgex" then p.edgexPosition + p.lighterPosition
  else p.extendedPosition + p.lighterPosition

/-- Test fixture: a tracker whose net position (3 + 2 on the Extended
pairing) sits exactly at a cap of 5. -/
def cappedTracker : PositionTracker :=
  { makerExchange := "extended", edgexPosition := 0,
    extendedPosition := 3, lighterPosition := 2 }

/-- Configuration stored by `ExtendedArb.__init__`: ticker, order quantity,
fill timeout, maximum net position, and the two spread thresholds. -/
structure ArbConfig where
  ticker : String
  orderQuantity : ℚ
  fillTimeout : ℕ
  maxPosition : ℚ
  longExThreshold : ℚ
  shortExThreshold : ℚ
  deriving DecidableEq, Repr

/-- The Lighter tick size hardcoded in `ExtendedArb.run`
(`lighter_tick_size = Decimal("0.01")`). -/
def lighterTickSize : ℚ := 1 / 100

/-- Order update delivered to `OrderManager.handle_extended_order_update`
after `WebSocketManagerWrapper._handle_extended_order_update` reshapes the
wire message; each `.get` may yield `None`. -/
structure OrderUpdate where
  orderId : Option String
  status : Option String
  side : Option String
  filledSize : Option ℚ
  deriving DecidableEq, Repr

/-- Order-lifecycle state fields of `OrderManager`. -/
structure OrderManager where
  currentMakerOrderId : Option String
  waitingForLighterFill : Bool
  orderExecutionComplete : Bool
  currentLighterSide : Option String
  currentLighterQuantity : Option ℚ
  currentLighterPrice : Option ℚ
  deriving DecidableEq, Repr

/-- Test fixture: an `OrderManager` tracking the given maker order id, with
no pending hedge. -/
def mkManager (tracked : Option String) : OrderManager :=
  { currentMakerOrderId := tracked, waitingForLighterFill := false,
    orderExecutionComplete := false, currentLighterSide := none,
    currentLighterQuantity := none, currentLighterPrice := none }

/-- Test fixture: a FILLED order update for a buy maker order with the
given order id and filled size. -/
def filledUpdate (oid : Option String) (q : ℚ) : OrderUpdate :=
  { orderId := oid, status := some "FILLED", side := some "buy",
    filledSize := some q }

/-- Embedding of `OrderManager.handle_extended_order_update`: when the
update's order id equals the tracked maker order id and its status is
FILLED, derive the Lighter hedge (side flipped by `side == 'buy'`, quantity
`filled_size` defaulting to 0, price the Lighter touch times 1.05 for a buy
hedge or 0.95 for a sell hedge, `None` when the touch is falsy) and set
`waiting_for_lighter_fill`; any other update changes nothing. -/
def handle_extended_order_update (book : OrderBookManager) (s : OrderManager)
    (u : OrderUpdate) : OrderManager :=
  if u.orderId = s.currentMakerOrderId ∧ u.status = some "FILLED" then
    let hedgeSide : String := if u.side = some "buy" then "sell" else "buy"
    let qty : ℚ := u.filledSize.getD 0
    let price : Option ℚ :=
      if hedgeSide = "buy" then
        if truthy (get_lighter_bbo book).2 then
          Option.map (fun a => a * (21 / 20)) (get_lighter_bbo book).2
        else none
      else
        if truthy (get_lighter_bbo book).1 then
          Option.map (fun b => b * (19 / 20)) (get_lighter_bbo book).1
        else none
    { s with
      currentLighterSide := some hedgeSide,
      currentLighterQuantity := some qty,
      currentLighterPrice := price,
      waitingForLighterFill := true,
      orderExecutionComplete := false }
  else s

/-- Arguments of one `place_lighter_market_order` dispatch issued by the
hedging block of the trading loop. -/
structure HedgeDispatch where
  side : Option String
  quantity : Option ℚ
  price : Option ℚ
  deriving DecidableEq, Repr

/-- Embedding of the hedging block of one `ExtendedArb.run` loop iteration:
when `waiting_for_lighter_fill` is set, dispatch the stored hedge arguments
and clear the flag; otherwise do nothing. -/
def hedgeTick (s : OrderManager) : OrderManager × Option HedgeDispatch :=
  if s.waitingForLighterFill then
    ({ s with waitingForLighterFill := false },
     some { side := s.currentLighterSide, quantity := s.currentLighterQuantity,
            price := s.currentLighterPrice })
  else (s, none)

/-- One observable coordinator step: the websocket delivers an order update,
or the trading loop runs its hedging block. -/
inductive CoordStep
  | wsUpdate (u : OrderUpdate)
  | loopTick
  deriving Repr

/-- Run a sequence of coordinator steps against a fixed quote book,
collecting every hedge dispatch issued by the hedging block. -/
def runSteps (book : OrderBookManager) : OrderManager → List CoordStep →
    OrderManager × List HedgeDispatch
  | s, [] => (s, [])
  | s, CoordStep.wsUpdate u :: rest =>
      runSteps book (handle_extended_order_update book s u) rest
  | s, CoordStep.loopTick :: rest =>
      let s2 := (hedgeTick s).1
      let d := (hedgeTick s).2
      let r := runSteps book s2 rest
      (r.1, d.toList ++ r.2)

/-- Exit reason of `OrderManager._monitor_extended_order_fill`. -/
inductive MonitorExit
  | stopped        -- the stop flag was set when the loop condition ran
  | timeoutCancel  -- elapsed time exceeded the hardcoded 5 s: cancel issued
  deriving DecidableEq, Repr

/-- Embedding of `OrderManager._monitor_extended_order_fill`, time counted
in the loop's 0.1 s sleeps: at tenth `t` the elapsed time is `t / 10`
seconds and the timeout test `time.time() - start_time > 5` is `t > 50`.
Returns the exit reason, the tenth at exit, and the value returned to the
caller: both `return` statements in the source return `False`. -/
def monitor_extended_order_fill (stopFlag : Bool) (t : ℕ) : MonitorExit × ℕ × Bool :=
  if stopFlag then (MonitorExit.stopped, t, false)
  else if h : t > 50 then (MonitorExit.timeoutCancel, t, false)
  else monitor_extended_order_fill stopFlag (t + 1)
termination_by 51 - t
decreasing_by omega

/-- Result object produced by the exchange clients (`OrderResult` in
`exchanges/base.py` as used by `extended.py` and `lighter.py`). -/
structure OrderResult where
  success : Bool
  orderId : Option String
  errorMessage : Option String
  deriving DecidableEq, Repr

/-- Venue interactions visible to one `place_extended_post_only_order`
call: whether an Extended client is configured, and what
`place_open_order` returns (`Except.error` models a raised exception). -/
structure PlaceEnv where
  clientConfigured : Bool
  placeResult : Except String OrderResult

/-- Outcome of a `place_extended_post_only_order` call: the `ValueError`
raised when no client is configured, or the returned boolean. -/
inductive PlaceOutcome
  | raisedValueError
  | returned (value : Bool)
  deriving DecidableEq, Repr

/-- Embedding of `OrderManager.place_extended_post_only_order`: raise when
no Extended client is configured; return `False` when a side of the
Extended BBO is `None`; return `False` when `place_open_order` raises or
reports failure; otherwise store the order id and return the result of
`_monitor_extended_order_fill`. -/
def place_extended_post_only_order (env : PlaceEnv) (book : OrderBookManager)
    (side : String) (quantity : ℚ) (stopFlag : Bool) : PlaceOutcome :=
  if !env.clientConfigured then PlaceOutcome.raisedValueError
  else
    match get_extended_bbo book with
    | (none, _) => PlaceOutcome.returned false
    | (some _, none) => PlaceOutcome.returned false
    | (some _, some _) =>
        match env.placeResult with
        | Except.error _ => PlaceOutcome.returned false
        | Except.ok r =>
            if r.success = false then PlaceOutcome.returned false
            else PlaceOutcome.returned (monitor_extended_order_fill stopFlag 0).2.2

/-- An HTTP response as seen by `ExtendedClient.cancel_order`. -/
structure HttpResponse where
  status : ℕ
  body : String
  deriving DecidableEq, Repr

/-- Embedding of `ExtendedClient.cancel_order`: DELETE the order; HTTP 200
yields a success result carrying the order id, any other status yields a
failure result with the response body, a raised exception yields a failure
result with the exception text. -/
def extended_cancel_order (orderId : String) (resp : Except String HttpResponse) :
    OrderResult :=
  match resp with
  | Except.error e => { success := false, orderId := none, errorMessage := some e }
  | Except.ok r =>
      if r.status = 200 then
        { success := true, orderId := some orderId, errorMessage := none }
      else
        { success := false, orderId := none, errorMessage := some r.body }

/-- Embedding of `LighterClient.cancel_order`: success exactly when the SDK
call does not raise. -/
def lighter_cancel_order (sdkResult : Except String Unit) : OrderResult :=
  match sdkResult with
  | Except.ok _ => { success := true, orderId := none, errorMessage := none }
  | Except.error e => { success := false, orderId := none, errorMessage := some e }

/-- Modelled from the spec: the venue's response to cancelling an order id
that is already filled, already cancelled, or unknown. The repository does
not contain the venue; the spec's wording ("not found" / "already
terminal") makes this an HTTP error response, not a 200. -/
def terminalOrderCancelResponse : HttpResponse :=
  { status := 404, body := "order not found" }

/-- Embedding of `LighterCustomWebSocketManager.connect`: a single `for`
pass over the two fallback urls; each list entry tells whether that
attempt establishes a connection (`true`: the method returns when the
stream ends) or raises (`false`: sleep and move to the next url). The
result counts the connection attempts made before the method returns. -/
def lighter_connect (stopFlag : Bool) : List Bool → ℕ
  | [] => 0
  | ok :: rest =>
      if stopFlag then 0
      else if ok then 1
      else 1 + lighter_connect stopFlag rest

/-- The number of fallback urls hardcoded in
`LighterCustomWebSocketManager.connect`. -/
def lighterUrlCount : ℕ := 2

/-- Embedding of the reconnect loops of the Extended websocket tasks
(`run_public_ws` and `run_private_ws` in
`WebSocketManagerWrapper.setup_extended_websocket`): each iteration checks
`stop_flag` and on any connection error sleeps and loops again, regardless
of how the attempt ended. `extended_ws_loop_exited stop n` is `true` when
the loop has exited within its first `n` iterations, where `stop k` is the
flag value read at iteration `k`. -/
def extended_ws_loop_exited (stop : ℕ → Bool) : ℕ → Bool
  | 0 => false
  | n + 1 =>
      if stop 0 then true
      else extended_ws_loop_exited (fun k => stop (k + 1)) n

/-- Modelled from the spec: a price lies on a venue's tick grid when it is
an integer multiple of the tick size; a price "rounded per venue tick
size" always lies on the grid. -/
def onTickGrid (price tick : ℚ) : Prop := ∃ n : ℤ, price = n * tick

/-- Helper: with the stop flag clear, the fill monitor always ends by
issuing a cancel after the hardcoded timeout, at tenth `max t 51`, and
returns `False`. -/
lemma monitor_fill_false_aux :
    ∀ (n t : ℕ), 51 ≤ t + n →
      monitor_extended_order_fill false t
        = (MonitorExit.timeoutCancel, max t 51, false) := by
  intro n
  induction n with
  | zero =>
      intro t ht
      have h51 : t > 50 := by omega
      have hm : max t 51 = t := by omega
      rw [monitor_extended_order_fill, hm]
      simp [h51]
  | succ n ih =>
      intro t ht
      by_cases h51 : t > 50
      · have hm : max t 51 = t := by omega
        rw [monitor_extended_order_fill, hm]
        simp [h51]
      · have hrec := ih (t + 1) (by omega)
        have hm : max (t + 1) 51 = max t 51 := by omega
        rw [monitor_extended_order_fill]
        simp [h51, hrec, hm]

/-- Helper: the fill monitor returns `False` at every exit. -/
lemma monitor_fill_result_false (stopFlag : Bool) (t : ℕ) :
    (monitor_extended_order_fill stopFlag t).2.2 = false := by
  cases stopFlag
  · rw [monitor_fill_false_aux 51 t (by omega)]
  · rw [monitor_extended_order_fill]
    simp

/-- Helper: on a book where all four prices are present and nonzero, the
tick reduces to the two spread tests. -/
lemma tickDecision_mkBook (eb ea lb la longTh shortTh : ℚ)
    (heb : eb ≠ 0) (hea : ea ≠ 0) (hlb : lb ≠ 0) (hla : la ≠ 0) :
    tickDecision (mkBook (some eb) (some ea) (some lb) (some la)) longTh shortTh
      = if lb - eb > longTh then TickAction.placeBuy eb
        else if ea - la > shortTh then TickAction.placeSell ea
        else TickAction.noOp := by
  simp [tickDecision, mkBook, heb, hea, hlb, hla]

/-- Claim C7: this counterexample refutes the claim that a one-sided update
is discarded without mutating the stored quote and that sides are validated
positive: an update carrying only a bid overwrites the stored pair (the ask
becomes `None`), and a negative bid is stored as-is. -/
theorem C7_one_sided_update_mutates :
    (update_extended_bbo (mkBook (some 1) (some 2) none none)
        (RawVal.vNum 5) RawVal.vNone
      ≠ mkBook (some 1) (some 2) none none)
    ∧ (update_extended_bbo (mkBook (some 1) (some 2) none none)
        (RawVal.vNum (-3)) (RawVal.vNum 2)
      = mkBook (some (-3)) (some 2) none none) := by
  constructor <;> decide

/-- Claim C7 (amended): each call to the Extended book update replaces the
stored bid and ask independently with the parsed decimal (`None` when the
input is absent or unparseable), with no positivity validation; the other
venues' quotes are untouched. -/
theorem C7_update_replaces_each_side (m : OrderBookManager) (bid ask : RawVal) :
    (update_extended_bbo m bid ask).extended
        = { bid := toDecimal bid, ask := toDecimal ask }
    ∧ (update_extended_bbo m bid ask).lighter = m.lighter
    ∧ (update_extended_bbo m bid ask).edgex = m.edgex :=
  ⟨rfl, rfl, rfl⟩

/-- Claim C8: this counterexample refutes idempotent-success cancellation:
cancelling an already-terminal or unknown order id (a 404 response on
Extended, a raised SDK error on Lighter) yields a failure result, not
success. -/
theorem C8_terminal_cancel_reports_failure :
    (extended_cancel_order "42" (Except.ok terminalOrderCancelResponse)).success = false
    ∧ (lighter_cancel_order (Except.error "order already cancelled")).success = false := by
  constructor <;> rfl

/-- Claim C8 (amended): `cancel_order` reports success exactly when the
venue answers HTTP 200 (Extended) or the SDK call does not raise (Lighter);
"not found" and "already terminal" responses surface as failure results. -/
theorem C8_cancel_success_only_on_ok (orderId : String) (r : HttpResponse) (e : String) :
    ((extended_cancel_order orderId (Except.ok r)).success = true ↔ r.status = 200)
    ∧ (extended_cancel_order orderId (Except.error e)).success = false
    ∧ (lighter_cancel_order (Except.ok ())).success = true
    ∧ (lighter_cancel_order (Except.error e)).success = false := by
  refine ⟨?_, rfl, rfl, rfl⟩
  simp only [extended_cancel_order]
  split_ifs with h <;> simp [h]

/-- Claim C9: this counterexample refutes indefinite retry for the Lighter
feed: with shutdown not requested and both fallback urls failing, the
Lighter connect method returns after exactly two attempts — its connection
loop terminates after failed connection attempts. -/
theorem C9_lighter_connect_terminates :
    lighter_connect false [false, false] = 2 ∧ lighterUrlCount = 2 := by
  constructor <;> rfl

/-- Claim C9 (amended): the Extended websocket reconnect loops never exit
while shutdown is not requested, however many failed iterations occur; the
Lighter custom websocket connect makes a single pass over its url list (at
most one attempt per url) and then returns — it does not retry
indefinitely. -/
theorem C9_extended_retries_lighter_single_pass (n : ℕ) (outcomes : List Bool) :
    extended_ws_loop_exited (fun _ => false) n = false
    ∧ lighter_connect false outcomes ≤ outcomes.length := by
  constructor
  · induction n with
    | zero => rfl
    | succ k ih => simpa [extended_ws_loop_exited] using ih
  · induction outcomes with
    | nil => simp [lighter_connect]
    | cons ok rest ih =>
        cases ok
        · simp only [lighter_connect, Bool.false_eq_true, if_false, List.length_cons]
          omega
        · simp [lighter_connect]

/-- Claim C10: every invocation of `place_extended_post_only_order` either
raises (no client configured) or returns `False`: the fill monitor returns
`False` on both its exits, so the placement call never reports a successful
fill through its return value. -/
theorem C10_place_never_returns_true (env : PlaceEnv) (book : OrderBookManager)
    (side : String) (quantity : ℚ) (stopFlag : Bool) :
    place_extended_post_only_order env book side quantity stopFlag
        = PlaceOutcome.raisedValueError
    ∨ place_extended_post_only_order env book side quantity stopFlag
        = PlaceOutcome.returned false := by
  obtain ⟨⟨ebid, eask⟩, lig, edg⟩ := book
  obtain ⟨configured, placeRes⟩ := env
  unfold place_extended_post_only_order
  cases configured
  · left; rfl
  · cases ebid with
    | none => right; rfl
    | some bb =>
        cases eask with
        | none => right; rfl
        | some ba =>
            cases placeRes with
            | error e => right; rfl
            | ok r =>
                by_cases hs : r.success = false
                · right; simp [get_extended_bbo, hs]
                · right; simp [get_extended_bbo, hs, monitor_fill_result_false]

/-- Claim C2: this counterexample refutes the claim for books whose four
prices are all present: a home bid of zero is present, and the long spread
100 − 0 exceeds the threshold 10, yet the tick skips (Python truthiness of
`all([...])` treats a zero price as missing) and no buy order is placed. -/
theorem C2_present_zero_bid_skips :
    tickDecision (mkBook (some 0) (some 1) (some 100) (some 1)) 10 10 = TickAction.skip
    ∧ (100 : ℚ) - 0 > 10 := by
  constructor
  · simp [tickDecision, mkBook]
  · norm_num

/-- Claim C2 (amended): on a tick where all four prices are present and
nonzero, a buy maker order is placed at the home bid iff
counter.bid − home.bid > long_threshold; otherwise a sell maker order is
placed at the home ask iff home.ask − counter.ask > short_threshold; if
neither inequality holds, no order is placed. -/
theorem C2_tick_spread_rule (eb ea lb la longTh shortTh : ℚ)
    (heb : eb ≠ 0) (hea : ea ≠ 0) (hlb : lb ≠ 0) (hla : la ≠ 0) :
    (tickDecision (mkBook (some eb) (some ea) (some lb) (some la)) longTh shortTh
        = TickAction.placeBuy eb ↔ lb - eb > longTh)
    ∧ (tickDecision (mkBook (some eb) (some ea) (some lb) (some la)) longTh shortTh
        = TickAction.placeSell ea ↔ ¬ lb - eb > longTh ∧ ea - la > shortTh)
    ∧ (tickDecision (mkBook (some eb) (some ea) (some lb) (some la)) longTh shortTh
        = TickAction.noOp ↔ ¬ lb - eb > longTh ∧ ¬ ea - la > shortTh) := by
  rw [tickDecision_mkBook eb ea lb la longTh shortTh heb hea hlb hla]
  split_ifs with h1 h2 <;> simp_all

/-- Witness for C2: a concrete book (home 100/101, counter 111/90,
thresholds 10) where the long spread 11 exceeds 10 and the buy leg of the
rule fires. -/
theorem C2_tick_spread_rule_witness :
    ((100 : ℚ) ≠ 0 ∧ (101 : ℚ) ≠ 0 ∧ (111 : ℚ) ≠ 0 ∧ (90 : ℚ) ≠ 0)
    ∧ (tickDecision (mkBook (some 100) (some 101) (some 111) (some 90)) 10 10
        = TickAction.placeBuy 100 ↔ (111 : ℚ) - 100 > 10) :=
  ⟨by norm_num,
   (C2_tick_spread_rule 100 101 111 90 10 10 (by norm_num) (by norm_num)
      (by norm_num) (by norm_num)).1⟩

/-- Claim C4: this counterexample refutes the position gate: with the net
position at the cap (|3 + 2| ≥ 5) and a buy-side opportunity, the tick
still decides to place the buy maker order — no gating occurs. -/
theorem C4_buy_placed_at_position_cap :
    |get_net_position cappedTracker| ≥ (5 : ℚ)
    ∧ tickDecision (mkBook (some 100) (some 101) (some 111) (some 90)) 10 10
        = TickAction.placeBuy 100 := by
  constructor
  · simp only [get_net_position, cappedTracker]
    rw [if_neg (by decide)]
    norm_num
  · simp [tickDecision, mkBook]
    norm_num

/-- Claim C4 (amended): the trading loop consults no position state — for
every tracker state and cap, even with |net_position| ≥ max_position, a
buy-side opportunity still triggers the buy placement and a sell-side
opportunity still triggers the sell placement. -/
theorem C4_placement_ignores_position_cap (pt : PositionTracker) (cap : ℚ)
    (hcap : |get_net_position pt| ≥ cap)
    (eb ea lb la longTh shortTh : ℚ)
    (heb : eb ≠ 0) (hea : ea ≠ 0) (hlb : lb ≠ 0) (hla : la ≠ 0) :
    (lb - eb > longTh →
      tickDecision (mkBook (some eb) (some ea) (some lb) (some la)) longTh shortTh
        = TickAction.placeBuy eb)
    ∧ (¬ lb - eb > longTh → ea - la > shortTh →
      tickDecision (mkBook (some eb) (some ea) (some lb) (some la)) longTh shortTh
        = TickAction.placeSell ea) := by
  rw [tickDecision_mkBook eb ea lb la longTh shortTh heb hea hlb hla]
  constructor
  · intro h
    simp [h]
  · intro h1 h2
    simp [h1, h2]

/-- Witness for C4: tracker at net 5 against cap 5, buy opportunity
111 − 100 > 10 — the buy placement still fires. -/
theorem C4_placement_ignores_position_cap_witness :
    |get_net_position cappedTracker| ≥ (5 : ℚ)
    ∧ tickDecision (mkBook (some 100) (some 101) (some 111) (some 90)) 10 10
        = TickAction.placeBuy 100 :=
  ⟨by simp only [get_net_position, cappedTracker]; rw [if_neg (by decide)]; norm_num,
   (C4_placement_ignores_position_cap cappedTracker 5
      (by simp only [get_net_position, cappedTracker]; rw [if_neg (by decide)]; norm_num)
      100 101 111 90 10 10 (by norm_num) (by norm_num) (by norm_num)
      (by norm_num)).1 (by norm_num)⟩

/-- Claim C6: an order update whose id differs from the currently tracked
maker order id is discarded: the handler leaves the whole coordinator state
unchanged, so no hedge side, quantity, price or waiting flag is set and no
hedge order is issued. -/
theorem C6_nonmatching_update_is_noop (book : OrderBookManager) (s : OrderManager)
    (u : OrderUpdate) (h : u.orderId ≠ s.currentMakerOrderId) :
    handle_extended_order_update book s u = s := by
  have hc : ¬ (u.orderId = s.currentMakerOrderId ∧ u.status = some "FILLED") := by
    rintro ⟨h1, -⟩
    exact h h1
  simp [handle_extended_order_update, hc]

/-- Witness for C6: a FILLED update for order id B while order id A is
tracked leaves the manager state untouched. -/
theorem C6_nonmatching_update_is_noop_witness :
    (filledUpdate (some "B") 1).orderId ≠ (mkManager (some "A")).currentMakerOrderId
    ∧ handle_extended_order_update (mkBook none none none none)
        (mkManager (some "A")) (filledUpdate (some "B") 1)
      = mkManager (some "A") :=
  ⟨by decide,
   C6_nonmatching_update_is_noop (mkBook none none none none)
     (mkManager (some "A")) (filledUpdate (some "B") 1) (by decide)⟩

/-- Claim C3: this counterexample refutes the tick-size rounding: on a buy
maker fill with the Lighter bid at 100.01, the computed hedge price is
100.01 × 0.95 = 95.0095, which does not lie on the 0.01 tick grid — the
price is not rounded per venue tick size. -/
theorem C3_hedge_price_off_tick_grid :
    (handle_extended_order_update
        (mkBook none none (some (10001 / 100)) (some (10002 / 100)))
        (mkManager (some "X"))
        (filledUpdate (some "X") 1)).currentLighterPrice
      = some ((10001 / 100) * (19 / 20))
    ∧ ¬ onTickGrid ((10001 / 100 : ℚ) * (19 / 20)) lighterTickSize := by
  constructor
  · have hb0 : ((10001 : ℚ) / 100) ≠ 0 := by norm_num
    simp [handle_extended_order_update, mkBook, mkManager, filledUpdate,
      truthy, get_lighter_bbo, hb0]
  · rintro ⟨n, hn⟩
    rw [lighterTickSize] at hn
    norm_num at hn
    have h1 : ((20 * n : ℤ) : ℚ) = 190019 := by
      push_cast
      linarith
    have h2 : (20 * n : ℤ) = 190019 := by exact_mod_cast h1
    omega

/-- Claim C3 (amended): for every FILLED update matching the tracked maker
order id, the hedge quantity equals the reported filled size, the hedge
side is opposite (sell for a buy fill, buy for a sell fill), and the hedge
price is exactly the counter-venue touch times 0.95 (sell hedge on the
bid) or 1.05 (buy hedge on the ask), with no tick-size rounding, whenever
that touch is present and nonzero. -/
theorem C3_hedge_side_qty_price (book : OrderBookManager) (s : OrderManager)
    (u : OrderUpdate) (hid : u.orderId = s.currentMakerOrderId)
    (hst : u.status = some "FILLED") :
    ((handle_extended_order_update book s u).currentLighterQuantity
        = some (u.filledSize.getD 0))
    ∧ (∀ b : ℚ, u.side = some "buy" → book.lighter.bid = some b → b ≠ 0 →
        (handle_extended_order_update book s u).currentLighterSide = some "sell"
        ∧ (handle_extended_order_update book s u).currentLighterPrice
            = some (b * (19 / 20)))
    ∧ (∀ a : ℚ, u.side = some "sell" → book.lighter.ask = some a → a ≠ 0 →
        (handle_extended_order_update book s u).currentLighterSide = some "buy"
        ∧ (handle_extended_order_update book s u).currentLighterPrice
            = some (a * (21 / 20))) := by
  have hc : u.orderId = s.currentMakerOrderId ∧ u.status = some "FILLED" := ⟨hid, hst⟩
  refine ⟨?_, ?_, ?_⟩
  · simp [handle_extended_order_update, hc]
  · intro b hside hb hb0
    have hns : ¬ (some "sell" : Option String) = some "buy" := by decide
    constructor <;>
      simp [handle_extended_order_update, hc, hside, hns, truthy,
        get_lighter_bbo, hb, hb0]
  · intro a hside ha ha0
    have hns : ¬ (some "sell" : Option String) = some "buy" := by decide
    constructor <;>
      simp [handle_extended_order_update, hc, hside, hns, truthy,
        get_lighter_bbo, ha, ha0]

/-- Witness for C3: a buy maker fill of size 2 for tracked order X with the
Lighter bid at 110.5 yields a sell hedge of quantity 2 priced
110.5 × 0.95. -/
theorem C3_hedge_side_qty_price_witness :
    ((handle_extended_order_update (mkBook none none (some (221 / 2)) (some 111))
        (mkManager (some "X"))
        (filledUpdate (some "X") 2)).currentLighterQuantity = some 2)
    ∧ ((handle_extended_order_update (mkBook none none (some (221 / 2)) (some 111))
        (mkManager (some "X"))
        (filledUpdate (some "X") 2)).currentLighterSide = some "sell")
    ∧ ((handle_extended_order_update (mkBook none none (some (221 / 2)) (some 111))
        (mkManager (some "X"))
        (filledUpdate (some "X") 2)).currentLighterPrice
        = some ((221 / 2) * (19 / 20))) := by
  have h := C3_hedge_side_qty_price
    (mkBook none none (some (221 / 2)) (some 111)) (mkManager (some "X"))
    (filledUpdate (some "X") 2) rfl rfl
  obtain ⟨hq, hbuy, -⟩ := h
  obtain ⟨hs, hp⟩ := hbuy (221 / 2) rfl rfl (by norm_num)
  exact ⟨by simpa [filledUpdate] using hq, hs, hp⟩

/-- Claim C5: this counterexample refutes use of the configured fill-wait
timeout: with `fill_timeout = 10` stored at construction, the monitor still
cancels at tenth 51 (elapsed just over the hardcoded 5 s), well before the
configured 10 s (tenth 100) would have elapsed. -/
theorem C5_cancel_before_configured_timeout :
    ({ ticker := "BTC", orderQuantity := 1, fillTimeout := 10, maxPosition := 0,
       longExThreshold := 10, shortExThreshold := 10 } : ArbConfig).fillTimeout = 10
    ∧ monitor_extended_order_fill false 0
        = (MonitorExit.timeoutCancel, 51, false)
    ∧ 51 < 10 * 10 := by
  refine ⟨rfl, ?_, by norm_num⟩
  simpa using monitor_fill_false_aux 51 0 (by omega)

/-- Claim C5 (amended): the fill-wait duration before cancelling is the
hardcoded 5 seconds of `_monitor_extended_order_fill`, regardless of the
`fill_timeout` stored at construction: when no fill interrupts the wait
(stop flag clear), the monitor issues the cancel at the first 0.1 s poll
past 5 s (tenth 51 from a start at 0) and stops waiting, returning
`False`. -/
theorem C5_fixed_five_second_timeout (cfg : ArbConfig) (t : ℕ) :
    (monitor_extended_order_fill false t).1 = MonitorExit.timeoutCancel
    ∧ monitor_extended_order_fill false 0
        = (MonitorExit.timeoutCancel, 51, false) := by
  constructor
  · rw [monitor_fill_false_aux 51 t (by omega)]
  · simpa using monitor_fill_false_aux 51 0 (by omega)

/-- Claim C1: with the Lighter book at 100/101 and maker order X tracked,
delivering a FILLED event for X, a hedging tick, a duplicate FILLED event
for the same id X (as after a reconnect), and another hedging tick
dispatches the hedge twice: the tracked id is never cleared after a fill,
so the duplicate re-arms `waiting_for_lighter_fill` and the claimed
exactly-once hedging is violated by the code. -/
theorem C1_duplicate_filled_dispatches_two_hedges :
    (runSteps (mkBook none none (some 100) (some 101)) (mkManager (some "X"))
        [CoordStep.wsUpdate (filledUpdate (some "X") 1), CoordStep.loopTick,
         CoordStep.wsUpdate (filledUpdate (some "X") 1), CoordStep.loopTick]).2.length
      = 2 := by
  have h100 : ((100 : ℚ)) ≠ 0 := by norm_num
  simp [runSteps, handle_extended_order_update, hedgeTick, mkBook, mkManager,
    filledUpdate, truthy, get_lighter_bbo, h100]

end CrossArb
